import Mathlib

/-!
Verification development for the `dogfight_cli` repository.

The simulation core (src/utils.py, src/base.py, src/game.py) is embedded
shallowly:

* Python floats are modelled as real numbers `ℝ`; Python's `round` builtin
  (round half to even) is `pyRound`, and `round(x, 5)` is `pyRound5`.
* `time.monotonic()` values are passed in explicitly as rational `now`
  arguments (times never mix with coordinates).
* Code that can raise a Python exception returns `Except Unit _`
  (`Gun.reload_chamber` subtracts `None` from a float when `last_fired`
  is still `None`, a `TypeError`).
* The curses screen is a pure sink: every `addch`/`addstr` call is dropped,
  all state-mutating logic is kept.
* The arena bounds `ULY/ULX/LRY/LRX` of src/utils.py depend on the terminal
  size through `Y_SHIFT`/`X_SHIFT`; they are modelled by an `ArenaCfg`
  carrying the two shifts, with `ARENA_HEIGHT = 20` and `ARENA_WIDTH = 80`
  fixed as in the source.
-/

/-- Python's builtin `round` on a real argument: round half to even
(banker's rounding).  For a tie (`fract x = 1/2`) the even neighbour is
chosen; otherwise it agrees with rounding to the nearest integer. -/
noncomputable def pyRound (x : ℝ) : ℤ :=
  if Int.fract x = 1 / 2 then
    if 2 ∣ ⌊x⌋ then ⌊x⌋ else ⌊x⌋ + 1
  else round x

/-- Python's `round(x, 5)` of src/utils.py `resolve_direction`: round to 5
decimal places, ties to even (the float representation error of the scaled
value is not modelled). -/
noncomputable def pyRound5 (x : ℝ) : ℝ :=
  (pyRound (x * 100000) : ℝ) / 100000

/-- The `Vector` dataclass of src/utils.py: a y/x pair of floats. -/
structure Vec where
  y : ℝ
  x : ℝ

/-- `Vector.resolve` (src/utils.py:50): round both components to integer
cell coordinates. -/
noncomputable def Vec.resolve (v : Vec) : ℤ × ℤ :=
  (pyRound v.y, pyRound v.x)

/-- `Vector.__round__` (src/utils.py:56): componentwise `round`, still a
`Vector`. -/
noncomputable def Vec.round (v : Vec) : Vec :=
  ⟨(pyRound v.y : ℝ), (pyRound v.x : ℝ)⟩

/-- `Vector.__add__` on two vectors (src/utils.py:65). -/
def Vec.add (a b : Vec) : Vec :=
  ⟨a.y + b.y, a.x + b.x⟩

/-- `Vector.__mul__` with a scalar (src/utils.py:81). -/
def Vec.smul (a : Vec) (s : ℝ) : Vec :=
  ⟨a.y * s, a.x * s⟩

/-- `resolve_direction` (src/utils.py:90): converts a radian angle to a
direction vector, cosine on the y axis and sine on the x axis, each rounded
to 5 decimal places. -/
noncomputable def resolve_direction (angle : ℝ) : Vec :=
  ⟨pyRound5 (Real.cos angle), pyRound5 (Real.sin angle)⟩

/-- `ARENA_HEIGHT` (src/utils.py:29). -/
def ARENA_HEIGHT : ℤ := 20

/-- `ARENA_WIDTH` (src/utils.py:30). -/
def ARENA_WIDTH : ℤ := 80

/-- The terminal-dependent centring shifts `Y_SHIFT`/`X_SHIFT`
(src/utils.py:35-36), kept abstract. -/
structure ArenaCfg where
  yShift : ℤ
  xShift : ℤ

/-- `ULY` (src/utils.py:39). -/
def ArenaCfg.uly (A : ArenaCfg) : ℤ := 0 + A.yShift

/-- `ULX` (src/utils.py:40). -/
def ArenaCfg.ulx (A : ArenaCfg) : ℤ := 0 + A.xShift

/-- `LRY` (src/utils.py:41). -/
def ArenaCfg.lry (A : ArenaCfg) : ℤ := ARENA_HEIGHT + A.yShift

/-- `LRX` (src/utils.py:42). -/
def ArenaCfg.lrx (A : ArenaCfg) : ℤ := ARENA_WIDTH + A.xShift

/-- The `BoundaryHit` namedtuple (src/base.py:19). -/
structure BoundaryHit where
  top : Bool
  right : Bool
  bottom : Bool
  left : Bool

/-- `any(list(bh))` over the four flags of a `BoundaryHit`. -/
def BoundaryHit.any (bh : BoundaryHit) : Bool :=
  bh.top || bh.right || bh.bottom || bh.left

/-- The sprite subclass that produced an `AnimatedSprite` (Python knows it
from the object's class). -/
inductive SpriteKind where
  | smoke
  | explosion
deriving DecidableEq

/-- The `AnimatedSprite` dataclass (src/base.py:202): coordinates, angle,
speed, the remaining animation frames and the deletion flag. -/
structure AnimatedSprite where
  coordinates : Vec
  angle_of_attack : ℝ
  speed : ℝ
  frames : List Char
  for_deletion : Bool
  kind : SpriteKind

/-- `PlaneSmoke` (src/base.py:269): frames `••ooO0oo00oo••`, spawned at a
plane's coordinates with default angle and speed 0. -/
def PlaneSmoke (c : Vec) : AnimatedSprite :=
  { coordinates := c
    angle_of_attack := 0
    speed := 0
    frames := "••ooO0oo00oo••".toList
    for_deletion := false
    kind := SpriteKind.smoke }

/-- `PlaneExplosion` (src/base.py:277): frames `x+x+x+•••.........`. -/
def PlaneExplosion (c : Vec) (angle speed : ℝ) : AnimatedSprite :=
  { coordinates := c
    angle_of_attack := angle
    speed := speed
    frames := "x+x+x+•••.........".toList
    for_deletion := false
    kind := SpriteKind.explosion }

/-- `AnimatedSprite.resolved_coords` (src/base.py:216). -/
noncomputable def AnimatedSprite.resolvedCoords (a : AnimatedSprite) : ℤ × ℤ :=
  a.coordinates.resolve

/-- `AnimatedSprite.next_frame` (src/base.py:238) with the screen dropped:
advance the coordinates along the sprite's direction, then either consume
the front frame or, when `frames` is exhausted, mark for deletion. -/
noncomputable def AnimatedSprite.nextFrame (a : AnimatedSprite) : AnimatedSprite :=
  let a1 := { a with
    coordinates := a.coordinates.add ((resolve_direction a.angle_of_attack).smul a.speed) }
  match a1.frames with
  | [] => { a1 with for_deletion := true }
  | _ :: rest => { a1 with frames := rest }

/-- The `Projectile` dataclass (src/base.py:285): kinematic configuration,
appearance, and tracked state. -/
structure Projectile where
  coordinates : Vec
  angle_of_attack : ℝ
  turning_circle : ℝ
  speed : ℝ
  infinite : Bool
  body : Char
  color : ℤ
  animations : List AnimatedSprite
  for_deletion : Bool

/-- `Projectile.resolved_coords` (src/base.py:308). -/
noncomputable def Projectile.resolvedCoords (p : Projectile) : ℤ × ℤ :=
  p.coordinates.resolve

/-- `Projectile._change_pitch` (src/base.py:316). -/
def Projectile.changePitch (p : Projectile) (up : Bool) : Projectile :=
  if up then
    { p with angle_of_attack := p.angle_of_attack + p.turning_circle }
  else
    { p with angle_of_attack := p.angle_of_attack - p.turning_circle }

/-- `Projectile._hit_boundary` (src/base.py:323): which of the four arena
bounds the resolved cell `(y, x)` lies on or beyond. -/
def Projectile.hitBoundary (A : ArenaCfg) (y x : ℤ) : BoundaryHit :=
  { top := decide (y ≤ A.uly)
    right := decide (x ≥ A.lrx)
    bottom := decide (y ≥ A.lry)
    left := decide (x ≤ A.ulx) }

/-- `Projectile._react_to_boundary` (src/base.py:343): an `infinite`
projectile is translated by one arena span on each axis that hit a bound;
otherwise any hit marks the projectile for deletion. -/
noncomputable def Projectile.reactToBoundary (A : ArenaCfg) (p : Projectile) : Projectile :=
  let r := p.coordinates.resolve
  let bh := Projectile.hitBoundary A r.1 r.2
  if p.infinite then
    let cy := p.coordinates.y
    let cy := if bh.top then cy + (ARENA_HEIGHT : ℝ) else cy
    let cy := if bh.bottom then cy - (ARENA_HEIGHT : ℝ) else cy
    let cx := p.coordinates.x
    let cx := if bh.right then cx - (ARENA_WIDTH : ℝ) else cx
    let cx := if bh.left then cx + (ARENA_WIDTH : ℝ) else cx
    { p with coordinates := ⟨cy, cx⟩ }
  else
    if bh.any then { p with for_deletion := true } else p

/-- `Projectile._move` (src/base.py:369): add `resolve_direction(angle) *
speed` to the coordinates, then react to the boundary. -/
noncomputable def Projectile.move (A : ArenaCfg) (p : Projectile) : Projectile :=
  Projectile.reactToBoundary A
    { p with coordinates :=
        p.coordinates.add ((resolve_direction p.angle_of_attack).smul p.speed) }

/-- `Projectile.hit_check` (src/base.py:397): the resolved coordinates of
`self` equal the resolved coordinates of `obj`. -/
noncomputable def Projectile.hitCheck (self obj : Projectile) : Bool :=
  decide (self.coordinates.resolve = obj.coordinates.resolve)

/-- The `Gun` dataclass (src/base.py:457).  `time.monotonic()` values are
rationals supplied by the caller.  A fresh gun starts with a full chamber
(`__post_init__`, src/base.py:470), `last_fired = None` and not reloading. -/
structure Gun where
  capacity : ℤ
  reload_time : ℚ
  damage : ℤ
  rounds_in_chamber : ℤ
  last_fired : Option ℚ
  is_reloading : Bool
deriving DecidableEq

/-- A `Gun(capacity, reload_time, damage)` as the dataclass constructor
builds it. -/
def mkGun (capacity : ℤ) (reload_time : ℚ) (damage : ℤ) : Gun :=
  { capacity := capacity
    reload_time := reload_time
    damage := damage
    rounds_in_chamber := capacity
    last_fired := none
    is_reloading := false }

/-- `Gun.reload_chamber` (src/base.py:473).  The source computes
`time.monotonic() - self.last_fired > self.reload_time` before looking at
`force`; when `last_fired` is still `None` this raises `TypeError`, which
is modelled as `Except.error ()`. -/
def Gun.reloadChamber (g : Gun) (now : ℚ) (force : Bool) : Except Unit Gun :=
  match g.last_fired with
  | none => Except.error ()
  | some lf =>
    let time_elapsed := decide (now - lf > g.reload_time)
    if time_elapsed || force then
      Except.ok { g with rounds_in_chamber := g.capacity, is_reloading := false }
    else
      Except.ok g

/-- The `Cannon` dataclass (src/base.py:409): a projectile with a damage
value; its class defaults are `turning_circle=0`, `speed=1.0`,
`infinite=False` and body `•`. -/
structure Cannon extends Projectile where
  damage : ℤ

/-- `Cannon(coordinates, angle_of_attack, damage=damage)` as `Gun.fire`
constructs it (src/base.py:498), with every other field at its dataclass
default. -/
def mkCannon (coordinates : Vec) (angle : ℝ) (damage : ℤ) : Cannon :=
  { coordinates := coordinates
    angle_of_attack := angle
    turning_circle := 0
    speed := 1
    infinite := false
    body := '•'
    color := 0
    animations := []
    for_deletion := false
    damage := damage }

/-- `Gun.fire` (src/base.py:483): when not reloading, decrement the chamber
and produce a `Cannon` carrying the gun's damage; if that emptied the
chamber, record `last_fired = now` and start reloading.  Returns the
optional cannon together with the updated gun. -/
def Gun.fire (g : Gun) (now : ℚ) (coordinates : Vec) (angle_of_attack : ℝ) :
    Option Cannon × Gun :=
  if !g.is_reloading then
    let g1 := { g with rounds_in_chamber := g.rounds_in_chamber - 1 }
    let c := mkCannon coordinates angle_of_attack g.damage
    if g1.rounds_in_chamber = 0 then
      (some c, { g1 with last_fired := some now, is_reloading := true })
    else
      (some c, g1)
  else
    (none, g)

/-- The three `PlaneExplosion`s a cannon hit appends to the hit plane's
animation queue (src/base.py:430-437): `for i in range(-1, 2)`, angle
offset `i / 5`, speed `cannon.speed * 0.5`, at the cannon's coordinates. -/
noncomputable def Cannon.hitExplosions (c : Cannon) : List AnimatedSprite :=
  [(-1 : ℤ), 0, 1].map fun i =>
    PlaneExplosion c.coordinates (c.angle_of_attack + (i : ℝ) / 5) (c.speed * 0.5)

/-- The `Plane` dataclass (src/base.py:509).  `nose` and `nose_coords` are
the derived state `__post_init__` and `_move` maintain; `gun` is the
player's gun (the dataclass default is `None`, never usable). -/
structure Plane extends Projectile where
  color_pair : ℤ
  gun : Gun
  nose : Char
  nose_coords : Vec
  hull_integrity : ℤ
  fired_cannon : List Cannon

/-- `Cannon._check_hits` (src/base.py:417): walk the planes; every plane
whose resolved cell equals the cannon's loses `damage` hull integrity and
gains the three hit explosions, and the cannon is marked for deletion.
Returns (hit, cannon, planes). -/
noncomputable def Cannon.checkHits (c : Cannon) (planes : List Plane) (hit : Bool) :
    Bool × Cannon × List Plane :=
  match planes with
  | [] => (hit, c, [])
  | p :: rest =>
    if p.toProjectile.hitCheck c.toProjectile then
      let p1 := { p with
        hull_integrity := p.hull_integrity - c.damage
        animations := p.animations ++ c.hitExplosions }
      let c1 := { c with for_deletion := true }
      let r := Cannon.checkHits c1 rest true
      (r.1, r.2.1, p1 :: r.2.2)
    else
      let r := Cannon.checkHits c rest hit
      (r.1, r.2.1, p :: r.2.2)

/-- `Cannon.update` (src/base.py:441) with the screen dropped: hit-check
against the planes; when nothing was hit, move and hit-check again. -/
noncomputable def Cannon.update (A : ArenaCfg) (c : Cannon) (planes : List Plane) :
    Cannon × List Plane :=
  let r1 := c.checkHits planes false
  if !r1.1 then
    let moved := { r1.2.1 with toProjectile := r1.2.1.toProjectile.move A }
    let r2 := moved.checkHits r1.2.2 false
    (r2.2.1, r2.2.2)
  else
    (r1.2.1, r1.2.2)

/-- `Plane._render_nose` (src/base.py:548): the nose glyph chosen from the
resolved direction components; on an unmatched pair the attribute keeps its
previous value. -/
noncomputable def noseGlyph (angle : ℝ) (old : Char) : Char :=
  let r := (resolve_direction angle).resolve
  if r.1 = 0 then '-'
  else if r.1 = 1 then
    if r.2 = 0 then '|'
    else if r.2 = -1 then '/'
    else if r.2 = 1 then '\\'
    else old
  else if r.1 = -1 then
    if r.2 = 0 then '|'
    else if r.2 = -1 then '\\'
    else if r.2 = 1 then '/'
    else old
  else old

/-- `Plane._move` (src/base.py:590): the base `Projectile._move`, then the
nose coordinates are recomputed as `round(coordinates) +
round(resolve_direction(angle))` and the nose glyph re-rendered. -/
noncomputable def Plane.move (A : ArenaCfg) (p : Plane) : Plane :=
  let p1 := { p with toProjectile := p.toProjectile.move A }
  { p1 with
    nose_coords :=
      (p1.coordinates.round).add ((resolve_direction p1.angle_of_attack).round)
    nose := noseGlyph p1.angle_of_attack p1.nose }

/-- `Plane._fire_cannon` (src/base.py:574): the cannon starts two resolved
direction steps ahead of the plane's rounded coordinates; the gun decides
whether a cannon comes out.  Returns the optional cannon and the plane with
the updated gun. -/
noncomputable def Plane.fireCannon (now : ℚ) (p : Plane) : Option Cannon × Plane :=
  let nc :=
    ((p.coordinates.round).add ((resolve_direction p.angle_of_attack).round)).add
      ((resolve_direction p.angle_of_attack).round)
  let r := p.gun.fire now nc p.angle_of_attack
  (r.1, { p with gun := r.2 })

/-- The `PlaneSmoke` step at the top of `Plane.draw` (src/base.py:613-619):
below 40 hull integrity, when no queued animation sits on the plane's
resolved cell, append a `PlaneSmoke` at the plane's coordinates. -/
noncomputable def Plane.smokeStep (p : Plane) : Plane :=
  if p.hull_integrity < 40 then
    if (p.animations.filter fun a =>
        decide (a.resolvedCoords = p.coordinates.resolve)).isEmpty then
      { p with animations := p.animations ++ [PlaneSmoke p.coordinates] }
    else p
  else p

/-- The five `PlaneExplosion`s a destroyed plane appends
(src/base.py:645-652): `for i in range(-2, 3)`, angle offset `i / 3`,
speed `plane.speed * 0.7`, at the plane's coordinates. -/
noncomputable def Plane.explosionFan (p : Plane) : List AnimatedSprite :=
  [(-2 : ℤ), -1, 0, 1, 2].map fun i =>
    PlaneExplosion p.coordinates (p.angle_of_attack + (i : ℝ) / 3) (p.speed * 0.7)

/-- `Plane.draw` (src/base.py:602) with the screen dropped: the smoke step,
then the move; a plane whose hull integrity is no longer positive appends
the five-explosion fan and is marked for deletion instead of being drawn. -/
noncomputable def Plane.draw (A : ArenaCfg) (p : Plane) : Plane :=
  let p1 := p.smokeStep
  let p2 := p1.move A
  if p2.hull_integrity > 0 then
    p2
  else
    { p2 with
      animations := p2.animations ++ p2.explosionFan
      for_deletion := true }

/-- The payload a key press routes to a player: a logical action string,
Python `None`, or the integer sentinel `NetworkGame.read_key` falls back
to for unmapped keys (src/game.py:277). -/
inductive Payload where
  | act : String → Payload
  | null : Payload
  | intVal : ℤ → Payload
deriving DecidableEq

/-- The `KeyPress` namedtuple (src/utils.py:20) for the local game, whose
player ids are the integers 1 and 2. -/
structure KeyPress where
  player_id : ℤ
  key : Payload

/-- `P_ONE_YOKE` (src/game.py:31): `curses.KEY_DOWN` (258) maps to `up`,
`curses.KEY_UP` (259) to `down`, space (32) to `shoot`. -/
def P_ONE_YOKE (k : ℤ) : Option String :=
  if k = 258 then some "up"
  else if k = 259 then some "down"
  else if k = 32 then some "shoot"
  else none

/-- `P_TWO_YOKE` (src/game.py:36): `w` (119) maps to `up`, `s` (115) to
`down`, `d` (100) to `shoot`. -/
def P_TWO_YOKE (k : ℤ) : Option String :=
  if k = 119 then some "up"
  else if k = 115 then some "down"
  else if k = 100 then some "shoot"
  else none

/-- `LocalGame.read_key` (src/game.py:216): one `KeyPress` per player; a
key not in the player's yoke yields a `None` action for that player. -/
def LocalGame.readKey (key : ℤ) : List KeyPress :=
  [{ player_id := 1
     key := match P_ONE_YOKE key with
            | some a => Payload.act a
            | none => Payload.null },
   { player_id := 2
     key := match P_TWO_YOKE key with
            | some a => Payload.act a
            | none => Payload.null }]

/-- The local-key half of `NetworkGame.read_key` (src/game.py:273-277):
`getch() == -1` becomes `None`, otherwise `P_ONE_YOKE.get(key_press, -1)`,
whose default for an unmapped key is the integer `-1`. -/
def NetworkGame.localKeyPayload (key : ℤ) : Payload :=
  if key = -1 then Payload.null
  else
    match P_ONE_YOKE key with
    | some a => Payload.act a
    | none => Payload.intVal (-1)

/-- One key applied to a plane inside `Player.parse_key`
(src/base.py:674-684): `up`/`down` change the pitch, `shoot` attempts to
fire and appends a produced cannon to `fired_cannon`; everything else
(including `None` and the network `-1` sentinel) does nothing. -/
noncomputable def Plane.applyKey (now : ℚ) (p : Plane) (key : Payload) : Plane :=
  let p1 :=
    match key with
    | Payload.act s =>
      if s = "up" || s = "down" then
        { p with toProjectile := p.toProjectile.changePitch (s = "up") }
      else p
    | _ => p
  match key with
  | Payload.act s =>
    if s = "shoot" then
      let r := Plane.fireCannon now p1
      match r.1 with
      | some c => { r.2 with fired_cannon := r.2.fired_cannon ++ [c] }
      | none => r.2
    else p1
  | _ => p1

/-- The `Player` dataclass (src/base.py:656) restricted to the state the
scheduler touches (the connection and info box are external I/O). -/
structure Player where
  player_id : ℤ
  callsign : String
  plane : Plane
  kills : ℕ
  ready : Bool

/-- `Player.parse_key` (src/base.py:671): fold this tick's key presses over
the player's plane, applying those addressed to the player. -/
noncomputable def Player.parseKey (now : ℚ) (pl : Player) (ks : List KeyPress) : Player :=
  { pl with
    plane := ks.foldl
      (fun plane k =>
        if k.player_id = pl.player_id then plane.applyKey now k.key else plane)
      pl.plane }

/-- `START_COORDS_ONE` (src/game.py:18): arena centre row, a quarter width
in from the left edge. -/
noncomputable def START_COORDS_ONE (A : ArenaCfg) : Vec :=
  ⟨((A.uly + ARENA_HEIGHT / 2 : ℤ) : ℝ), ((A.ulx + ARENA_WIDTH / 4 : ℤ) : ℝ)⟩

/-- `START_COORDS_TWO` (src/game.py:19): arena centre row, a quarter width
in from the right edge. -/
noncomputable def START_COORDS_TWO (A : ArenaCfg) : Vec :=
  ⟨((A.uly + ARENA_HEIGHT / 2 : ℤ) : ℝ), ((A.lrx - ARENA_WIDTH / 4 : ℤ) : ℝ)⟩

/-- `START_ANGLE_ONE = math.pi * -1/2` (src/game.py:20). -/
noncomputable def START_ANGLE_ONE : ℝ := Real.pi * (-1 / 2)

/-- `START_ANGLE_TWO = math.pi * 1/2` (src/game.py:21). -/
noncomputable def START_ANGLE_TWO : ℝ := Real.pi * (1 / 2)

/-- The `Game` dataclass state the scheduler mutates (src/game.py:43):
players, the shared cannon list and the shared animation list.  The screen
and the info boxes are external I/O and the settings are read-only. -/
structure Game where
  players : List Player
  cannons : List Cannon
  animations : List AnimatedSprite

/-- The field updates `Game.reset_plane` performs on the matched plane
(src/game.py:183-187): full hull, full chamber, the slot's starting
coordinates and angle, deletion flag cleared.  Python identifies the plane
by object identity (`id(plane) == id(player.plane)`); the model identifies
it by the owner's index `i`. -/
noncomputable def Game.resetPlaneFields (A : ArenaCfg) (i : ℕ) (p : Plane) : Plane :=
  { p with
    hull_integrity := 100
    gun := { p.gun with rounds_in_chamber := p.gun.capacity }
    coordinates := [START_COORDS_ONE A, START_COORDS_TWO A].getD i p.coordinates
    angle_of_attack := [START_ANGLE_ONE, START_ANGLE_TWO].getD i p.angle_of_attack
    for_deletion := false }

/-- The player loop of `Game.reset_plane` (src/game.py:181-190): the owner
of the reset plane gets the field updates and a forced reload (which can
raise, see `Gun.reloadChamber`); every other player's kill count is
incremented. -/
noncomputable def Game.resetLoop (A : ArenaCfg) (now : ℚ) (i j : ℕ) :
    List Player → Except Unit (List Player)
  | [] => Except.ok []
  | pl :: rest => do
    let pl' ←
      if j = i then do
        let p1 := Game.resetPlaneFields A i pl.plane
        let gun' ← p1.gun.reloadChamber now true
        pure { pl with plane := { p1 with gun := gun' } }
      else
        pure { pl with kills := pl.kills + 1 }
    let rest' ← Game.resetLoop A now i (j + 1) rest
    Except.ok (pl' :: rest')

/-- `Game.reset_plane` (src/game.py:174) for the plane owned by the player
at index `i`. -/
noncomputable def Game.resetPlane (A : ArenaCfg) (now : ℚ) (g : Game) (i : ℕ) :
    Except Unit Game := do
  let players' ← Game.resetLoop A now i 0 g.players
  Except.ok { g with players := players' }

/-- One iteration of the plane-update loop of `Game.next_frame`
(src/game.py:121-144) for the player at index `i`: reset a plane killed in
the previous frame, parse this tick's keys, drain one fired cannon into
the shared cannon list, draw (move) the plane, tick the reloading gun, and
transfer freshly spawned animations to the shared animation list. -/
noncomputable def Game.playerStep (A : ArenaCfg) (now : ℚ) (ks : List KeyPress)
    (g : Game) (i : ℕ) : Except Unit Game :=
  match g.players.get? i with
  | none => Except.ok g
  | some pl0 => do
    let g1 ← if pl0.plane.for_deletion then g.resetPlane A now i else pure g
    match g1.players.get? i with
    | none => Except.ok g1
    | some pl1 => do
      let pl2 := pl1.parseKey now ks
      let dr :=
        match pl2.plane.fired_cannon with
        | [] => (pl2.plane, g1.cannons)
        | c :: rest => ({ pl2.plane with fired_cannon := rest }, g1.cannons ++ [c])
      let plane3 := dr.1.draw A
      let gun' ←
        if plane3.gun.is_reloading then plane3.gun.reloadChamber now false
        else pure plane3.gun
      let plane4 := { plane3 with gun := gun' }
      let tr :=
        if plane4.animations.isEmpty then (plane4, g1.animations)
        else ({ plane4 with animations := [] }, g1.animations ++ plane4.animations)
      Except.ok
        { players := g1.players.set i { pl2 with plane := tr.1 }
          cannons := dr.2
          animations := tr.2 }

/-- The whole plane-update phase of `Game.next_frame`: the player loop over
all players in order. -/
noncomputable def Game.planesPhase (A : ArenaCfg) (now : ℚ) (ks : List KeyPress)
    (g : Game) : Except Unit Game :=
  (List.range g.players.length).foldlM (Game.playerStep A now ks) g

/-- The cannon loop of `Game.next_frame` (src/game.py:148-149): update each
cannon in order, threading the planes (cannon hits mutate the planes the
later cannons see). -/
noncomputable def Game.cannonLoop (A : ArenaCfg) :
    List Cannon → List Plane → (List Cannon × List Plane)
  | [], planes => ([], planes)
  | c :: rest, planes =>
    let r := c.update A planes
    let rr := Game.cannonLoop A rest r.2
    (r.1 :: rr.1, rr.2)

/-- The cannon phase of `Game.next_frame` (src/game.py:147-149): reap
cannons marked for deletion, then update every remaining cannon against
the players' planes. -/
noncomputable def Game.cannonPhase (A : ArenaCfg) (g : Game) : Game :=
  let cannons := g.cannons.filter fun c => !c.for_deletion
  let r := Game.cannonLoop A cannons (g.players.map fun pl => pl.plane)
  { g with
    cannons := r.1
    players := (g.players.zip r.2).map fun pr => { pr.1 with plane := pr.2 } }

/-- The animation phase of `Game.next_frame` (src/game.py:152-154): reap
finished animations, then advance the remaining ones one frame. -/
noncomputable def Game.animPhase (g : Game) : Game :=
  let anims := g.animations.filter fun a => !a.for_deletion
  { g with animations := anims.map AnimatedSprite.nextFrame }

/-- `Game.next_frame` (src/game.py:114): the plane phase, then the cannon
phase, then the animation phase (the debug box is external I/O). -/
noncomputable def Game.nextFrame (A : ArenaCfg) (now : ℚ) (g : Game)
    (ks : List KeyPress) : Except Unit Game := do
  let g1 ← g.planesPhase A now ks
  Except.ok (Game.animPhase (Game.cannonPhase A g1))

/-- One `(client_id, callsign)` entry of the bootstrap mapping
`NetworkGame._provision_players` receives (src/game.py:254-256). -/
structure NetEntry where
  cid : String
  callsign : String
deriving DecidableEq

/-- Insert an entry into a list already sorted by client id (ascending,
Python string comparison is lexicographic by code point, as is Lean's). -/
def insertByCid (e : NetEntry) : List NetEntry → List NetEntry
  | [] => [e]
  | f :: rest => if f.cid < e.cid then f :: insertByCid e rest else e :: f :: rest

/-- `uuids_and_callsigns.sort(key=lambda i: i[0])` (src/game.py:257):
sort the received entries by client id. -/
def sortByCid (l : List NetEntry) : List NetEntry :=
  l.foldr insertByCid []

/-- The keyword parameters the `__init__` generated for the draft
`dogfight.Plane` dataclass accepts (src/dogfight.py:119-134 and 204-221:
the `Projectile` fields `coordinates`, `angle_of_attack`,
`turning_circle`, `speed`, `body`, `infinite`, `for_deletion`; `nose` and
`nose_coords` are `init=False`).  This — not `base.Plane` — is the class
behind `BF109`/`P51`: src/planes.py:5 does `from dogfight import
Plane`. -/
def dogfightPlaneInitKwargs : List String :=
  ["coordinates", "angle_of_attack", "turning_circle", "speed", "body",
   "infinite", "for_deletion"]

/-- The keyword arguments each plane construction in
`Game._provision_planes` (src/game.py:70-77) passes: the keywords stored
in the `functools.partial` `BF109`/`P51` (src/planes.py:23-40:
`coordinates`, `angle_of_attack`, `color`, `speed`, `turning_circle`)
merged with the call-site keywords (`color_pair`, `coordinates`,
`angle_of_attack`; call-site values override the partial's). -/
def provisionPlaneCallKwargs : List String :=
  ["coordinates", "angle_of_attack", "color", "speed", "turning_circle",
   "color_pair"]

/-- `Game._provision_planes` (src/game.py:60): each plane is built by
calling the partial with the merged keywords; a Python call with a
keyword the dataclass `__init__` does not accept raises `TypeError`,
modelled as `Except.error ()`.  Were every keyword accepted, the two slot
configurations (starting coordinates, starting angle, color pair) would
be produced in order. -/
noncomputable def Game.provisionPlanes (A : ArenaCfg) :
    Except Unit (List (Vec × ℝ × ℤ)) :=
  if provisionPlaneCallKwargs.all (fun k => dogfightPlaneInitKwargs.contains k) then
    Except.ok [(START_COORDS_ONE A, START_ANGLE_ONE, 1),
               (START_COORDS_TWO A, START_ANGLE_TWO, 2)]
  else
    Except.error ()

/-- `NetworkGame._provision_players` (src/game.py:243): the method calls
`self._provision_planes()` (line 247) before sending the callsign payload
and entering the receive loop, so a `TypeError` there propagates before
anything is received.  Otherwise the received entries (`recv`, the
would-be two-client mapping) are sorted by client id and paired, in
order, with the plane slots; each element is `(player_id, callsign, slot
plane configuration)`. -/
noncomputable def NetworkGame.provisionPlayers (A : ArenaCfg) (recv : List NetEntry) :
    Except Unit (List (String × String × Vec × ℝ × ℤ)) := do
  let planes ← Game.provisionPlanes A
  Except.ok (((sortByCid recv).zip planes).map fun pr =>
    (pr.1.cid, pr.1.callsign, pr.2))

/-- Concrete arena for witnesses: zero centring shifts, bounds
`(0, 0)`-`(20, 80)`. -/
def A0 : ArenaCfg := ⟨0, 0⟩

/-- Concrete projectile fixture for witnesses. -/
def mkProj (c : Vec) (angle speed : ℝ) (inf : Bool) : Projectile :=
  { coordinates := c
    angle_of_attack := angle
    turning_circle := 0
    speed := speed
    infinite := inf
    body := '+'
    color := 0
    animations := []
    for_deletion := false }

/-- Iterated `Gun.fire`: one call per entry of `times`, each entry being
the `time.monotonic()` value of that call, collecting the returned
optional cannons in order. -/
def Gun.fireIter (g : Gun) (coordinates : Vec) (angle : ℝ) :
    List ℚ → (List (Option Cannon) × Gun)
  | [] => ([], g)
  | t :: ts =>
    let r := g.fire t coordinates angle
    let rr := r.2.fireIter coordinates angle ts
    (r.1 :: rr.1, rr.2)

/-- The gun state right after the chamber was emptied at time `t`:
no rounds left, reloading, `last_fired = t`. -/
def emptiedGun (cap : ℤ) (rt : ℚ) (dmg : ℤ) (t : ℚ) : Gun :=
  { capacity := cap
    reload_time := rt
    damage := dmg
    rounds_in_chamber := 0
    last_fired := some t
    is_reloading := true }

/-- Concrete plane fixture for witnesses. -/
def mkPlaneF (c : Vec) (angle speed : ℝ) (hull : ℤ) (gun : Gun) : Plane :=
  { coordinates := c
    angle_of_attack := angle
    turning_circle := 0
    speed := speed
    infinite := true
    body := '+'
    color := 0
    animations := []
    for_deletion := false
    color_pair := 1
    gun := gun
    nose := '-'
    nose_coords := ⟨0, 0⟩
    hull_integrity := hull
    fired_cannon := [] }

/-- Is this sprite a `PlaneExplosion`? -/
def AnimatedSprite.isExplosion (a : AnimatedSprite) : Bool :=
  match a.kind with
  | SpriteKind.explosion => true
  | _ => false

/-- A gun that has fired a full chamber before (so `last_fired` is set). -/
def wGun : Gun := { mkGun 3 1 5 with last_fired := some 0 }

/-- A destroyed plane fixture (hull 0, marked for deletion). -/
def deadPlane : Plane :=
  { mkPlaneF ⟨10, 20⟩ 0 1 0 wGun with for_deletion := true }

/-- A healthy plane fixture. -/
def alivePlane : Plane := mkPlaneF ⟨10, 60⟩ 0 1 50 wGun

/-- Two-player game fixture whose first plane is dead and reset-safe. -/
def wGameReset : Game :=
  ⟨[⟨1, "a", deadPlane, 0, true⟩, ⟨2, "b", alivePlane, 0, true⟩], [], []⟩

/-- A dead plane whose gun never emptied its chamber
(`last_fired = None`). -/
def freshGunDeadPlane : Plane :=
  { mkPlaneF ⟨10, 20⟩ 0 1 0 (mkGun 3 1 5) with for_deletion := true }

/-- Two-player game fixture whose first plane is dead but carries a gun
with `last_fired = None`. -/
def wGameResetBad : Game :=
  ⟨[⟨1, "a", freshGunDeadPlane, 0, true⟩, ⟨2, "b", alivePlane, 0, true⟩], [], []⟩

/-- Game fixture for a full `next_frame` run: two healthy planes at angle
0 and speed 1, empty shared lists. -/
def tickGame : Game :=
  ⟨[⟨1, "a", mkPlaneF ⟨10, 20⟩ 0 1 100 (mkGun 3 1 5), 0, true⟩,
    ⟨2, "b", mkPlaneF ⟨10, 60⟩ 0 1 100 (mkGun 3 1 5), 0, true⟩], [], []⟩

/-- Key presses for the `next_frame` run: player 1 shoots, player 2 is
idle. -/
def tickKeys : List KeyPress :=
  [⟨1, Payload.act "shoot"⟩, ⟨2, Payload.null⟩]

/-- A game with no players (the plane phase is empty). -/
def emptyGame : Game := ⟨[], [], []⟩

/-- Rounding an integer is the identity (no tie can occur). -/
theorem pyRound_intCast (n : ℤ) : pyRound (n : ℝ) = n := by
  unfold pyRound
  rw [Int.fract_intCast]
  norm_num

/-- Evaluation form of `pyRound_intCast` for numerals. -/
theorem pyRound_ofInt (x : ℝ) (n : ℤ) (h : x = (n : ℝ)) : pyRound x = n := by
  rw [h, pyRound_intCast]

/-- Rounding an integer to 5 decimal places is the identity. -/
theorem pyRound5_ofInt (x : ℝ) (n : ℤ) (h : x = (n : ℝ)) : pyRound5 x = (n : ℝ) := by
  subst h
  unfold pyRound5
  rw [pyRound_ofInt _ (n * 100000) (by push_cast; ring)]
  push_cast
  field_simp

/-- Componentwise evaluation of `Vector.resolve`. -/
theorem Vec.resolve_eval (v : Vec) (a b : ℤ) (hy : v.y = (a : ℝ)) (hx : v.x = (b : ℝ)) :
    v.resolve = (a, b) := by
  unfold Vec.resolve
  rw [pyRound_ofInt _ a hy, pyRound_ofInt _ b hx]

/-- Componentwise evaluation of `Vector.__round__`. -/
theorem Vec.round_eval (v : Vec) (a b : ℤ) (hy : v.y = (a : ℝ)) (hx : v.x = (b : ℝ)) :
    v.round = ⟨(a : ℝ), (b : ℝ)⟩ := by
  unfold Vec.round
  rw [pyRound_ofInt _ a hy, pyRound_ofInt _ b hx]

/-- The direction of angle 0: cos rounds to 1, sin rounds to 0. -/
theorem resolve_direction_zero : resolve_direction 0 = ⟨(1 : ℝ), (0 : ℝ)⟩ := by
  unfold resolve_direction
  rw [Real.cos_zero, Real.sin_zero]
  rw [pyRound5_ofInt 1 1 (by norm_num), pyRound5_ofInt 0 0 (by norm_num)]
  norm_num

/-- C2: for every infinite projectile, `_react_to_boundary` translates an
axis whose resolved coordinate lies at or beyond a bound by exactly one
arena span toward the opposite edge (plus the span past the top/left
bound, minus the span past the bottom/right bound) and leaves an axis
whose resolved coordinate is strictly inside the bounds unchanged. -/
theorem infinite_boundary_wrap (A : ArenaCfg) (p : Projectile)
    (hinf : p.infinite = true) :
    (p.coordinates.resolve.1 ≤ A.uly →
      (p.reactToBoundary A).coordinates.y = p.coordinates.y + ((ARENA_HEIGHT : ℤ) : ℝ)) ∧
    (p.coordinates.resolve.1 ≥ A.lry →
      (p.reactToBoundary A).coordinates.y = p.coordinates.y - ((ARENA_HEIGHT : ℤ) : ℝ)) ∧
    (A.uly < p.coordinates.resolve.1 ∧ p.coordinates.resolve.1 < A.lry →
      (p.reactToBoundary A).coordinates.y = p.coordinates.y) ∧
    (p.coordinates.resolve.2 ≤ A.ulx →
      (p.reactToBoundary A).coordinates.x = p.coordinates.x + ((ARENA_WIDTH : ℤ) : ℝ)) ∧
    (p.coordinates.resolve.2 ≥ A.lrx →
      (p.reactToBoundary A).coordinates.x = p.coordinates.x - ((ARENA_WIDTH : ℤ) : ℝ)) ∧
    (A.ulx < p.coordinates.resolve.2 ∧ p.coordinates.resolve.2 < A.lrx →
      (p.reactToBoundary A).coordinates.x = p.coordinates.x) := by
  refine ⟨?_, ?_, ?_, ?_, ?_, ?_⟩
  · intro hy
    have hb : ¬ (p.coordinates.resolve.1 ≥ A.lry) := by
      simp only [ArenaCfg.uly, ArenaCfg.lry, ARENA_HEIGHT] at hy ⊢
      omega
    simp [Projectile.reactToBoundary, Projectile.hitBoundary, hinf, hy, hb]
  · intro hy
    have ht : ¬ (p.coordinates.resolve.1 ≤ A.uly) := by
      simp only [ArenaCfg.uly, ArenaCfg.lry, ARENA_HEIGHT] at hy ⊢
      omega
    simp [Projectile.reactToBoundary, Projectile.hitBoundary, hinf, hy, ht]
  · intro hy
    have ht : ¬ (p.coordinates.resolve.1 ≤ A.uly) := by omega
    have hb : ¬ (p.coordinates.resolve.1 ≥ A.lry) := by omega
    simp [Projectile.reactToBoundary, Projectile.hitBoundary, hinf, ht, hb]
  · intro hx
    have hr : ¬ (p.coordinates.resolve.2 ≥ A.lrx) := by
      simp only [ArenaCfg.ulx, ArenaCfg.lrx, ARENA_WIDTH] at hx ⊢
      omega
    simp [Projectile.reactToBoundary, Projectile.hitBoundary, hinf, hx, hr]
  · intro hx
    have hl : ¬ (p.coordinates.resolve.2 ≤ A.ulx) := by
      simp only [ArenaCfg.ulx, ArenaCfg.lrx, ARENA_WIDTH] at hx ⊢
      omega
    simp [Projectile.reactToBoundary, Projectile.hitBoundary, hinf, hx, hl]
  · intro hx
    have hr : ¬ (p.coordinates.resolve.2 ≥ A.lrx) := by omega
    have hl : ¬ (p.coordinates.resolve.2 ≤ A.ulx) := by omega
    simp [Projectile.reactToBoundary, Projectile.hitBoundary, hinf, hr, hl]

/-- Witness for C2: an infinite projectile resolved at `(21, 5)` in the
zero-shift arena is past the bottom bound; the wrap subtracts the arena
height from `y` and leaves `x` unchanged. -/
theorem infinite_boundary_wrap_witness :
    ((mkProj ⟨21, 5⟩ 0 1 true).reactToBoundary A0).coordinates.y =
      (mkProj ⟨21, 5⟩ 0 1 true).coordinates.y - ((ARENA_HEIGHT : ℤ) : ℝ) ∧
    ((mkProj ⟨21, 5⟩ 0 1 true).reactToBoundary A0).coordinates.x =
      (mkProj ⟨21, 5⟩ 0 1 true).coordinates.x := by
  have hres : (mkProj ⟨21, 5⟩ 0 1 true).coordinates.resolve = (21, 5) :=
    Vec.resolve_eval _ 21 5 (by norm_num [mkProj]) (by norm_num [mkProj])
  have h := infinite_boundary_wrap A0 (mkProj ⟨21, 5⟩ 0 1 true) rfl
  refine ⟨h.2.1 ?_, h.2.2.2.2.2 ?_⟩
  · rw [hres]
    norm_num [A0, ArenaCfg.lry, ARENA_HEIGHT]
  · rw [hres]
    constructor
    · norm_num [A0, ArenaCfg.ulx]
    · norm_num [A0, ArenaCfg.lrx, ARENA_WIDTH]

/-- C1 (amended): one `_move` changes the coordinates by exactly
`resolve_direction(angle) * speed` whenever the boundary reaction does not
also translate them, i.e. when the projectile is not `infinite` (deletion
marking never touches coordinates) or when the post-move resolved
coordinates hit no arena bound. -/
theorem move_adds_direction_times_speed (A : ArenaCfg) (p : Projectile)
    (h : p.infinite = false ∨
      (Projectile.hitBoundary A
        ((p.coordinates.add ((resolve_direction p.angle_of_attack).smul p.speed)).resolve.1)
        ((p.coordinates.add ((resolve_direction p.angle_of_attack).smul p.speed)).resolve.2)).any
        = false) :
    (p.move A).coordinates =
      p.coordinates.add ((resolve_direction p.angle_of_attack).smul p.speed) := by
  rcases h with h | h
  · simp [Projectile.move, Projectile.reactToBoundary, h]
    split_ifs <;> rfl
  · simp only [BoundaryHit.any, Bool.or_eq_false_iff] at h
    obtain ⟨⟨⟨ht, hr⟩, hb⟩, hl⟩ := h
    simp [Projectile.move, Projectile.reactToBoundary, BoundaryHit.any, ht, hr, hb, hl]

/-- Counterexample to C1 as stated: an infinite projectile at `(19, 10)`
with angle 0 and speed 1 moves onto the bottom bound of the zero-shift
arena; `_move`'s boundary reaction wraps it, so the coordinate change is
not `resolve_direction(0) * 1`. -/
theorem move_delta_counterexample :
    ((mkProj ⟨19, 10⟩ 0 1 true).move A0).coordinates ≠
      (mkProj ⟨19, 10⟩ 0 1 true).coordinates.add
        ((resolve_direction (mkProj ⟨19, 10⟩ 0 1 true).angle_of_attack).smul
          (mkProj ⟨19, 10⟩ 0 1 true).speed) := by
  have h1 : (mkProj ⟨19, 10⟩ 0 1 true).coordinates.add
      ((resolve_direction (mkProj ⟨19, 10⟩ 0 1 true).angle_of_attack).smul
        (mkProj ⟨19, 10⟩ 0 1 true).speed) = Vec.mk 20 10 := by
    simp [mkProj, resolve_direction_zero, Vec.add, Vec.smul]
    norm_num
  have h2 : (Vec.mk (20 : ℝ) 10).resolve = (20, 10) :=
    Vec.resolve_eval _ 20 10 (by norm_num) (by norm_num)
  rw [Projectile.move, show
    ({ mkProj ⟨19, 10⟩ 0 1 true with
      coordinates := (mkProj ⟨19, 10⟩ 0 1 true).coordinates.add
        ((resolve_direction (mkProj ⟨19, 10⟩ 0 1 true).angle_of_attack).smul
          (mkProj ⟨19, 10⟩ 0 1 true).speed) } : Projectile) =
    { mkProj ⟨19, 10⟩ 0 1 true with coordinates := Vec.mk 20 10 } from by rw [h1]]
  rw [h1]
  simp [Projectile.reactToBoundary, Projectile.hitBoundary, mkProj, h2,
    A0, ArenaCfg.uly, ArenaCfg.ulx, ArenaCfg.lry, ArenaCfg.lrx,
    ARENA_HEIGHT, ARENA_WIDTH, Vec.mk.injEq]

/-- Witness for C1 (amended), which is also the spec's end-to-end
scenario: a plane at `(10, 10)` with angle 0 and speed 1 moves to
`(11, 10)` (no boundary is hit, so the change is exactly
`resolve_direction(0) * 1 = (1, 0)`). -/
theorem move_delta_witness :
    ((mkProj ⟨10, 10⟩ 0 1 true).move A0).coordinates = Vec.mk 11 10 := by
  have h1 : (mkProj ⟨10, 10⟩ 0 1 true).coordinates.add
      ((resolve_direction (mkProj ⟨10, 10⟩ 0 1 true).angle_of_attack).smul
        (mkProj ⟨10, 10⟩ 0 1 true).speed) = Vec.mk 11 10 := by
    simp [mkProj, resolve_direction_zero, Vec.add, Vec.smul]
    norm_num
  have h2 : ((mkProj ⟨10, 10⟩ 0 1 true).coordinates.add
      ((resolve_direction (mkProj ⟨10, 10⟩ 0 1 true).angle_of_attack).smul
        (mkProj ⟨10, 10⟩ 0 1 true).speed)).resolve = (11, 10) := by
    rw [h1]
    exact Vec.resolve_eval _ 11 10 (by norm_num) (by norm_num)
  rw [move_adds_direction_times_speed A0 (mkProj ⟨10, 10⟩ 0 1 true) (Or.inr (by
    rw [show (Projectile.hitBoundary A0
      ((mkProj ⟨10, 10⟩ 0 1 true).coordinates.add
        ((resolve_direction (mkProj ⟨10, 10⟩ 0 1 true).angle_of_attack).smul
          (mkProj ⟨10, 10⟩ 0 1 true).speed)).resolve.1
      ((mkProj ⟨10, 10⟩ 0 1 true).coordinates.add
        ((resolve_direction (mkProj ⟨10, 10⟩ 0 1 true).angle_of_attack).smul
          (mkProj ⟨10, 10⟩ 0 1 true).speed)).resolve.2) =
      Projectile.hitBoundary A0 11 10 from by rw [h2]]
    simp [Projectile.hitBoundary, BoundaryHit.any, A0, ArenaCfg.uly, ArenaCfg.ulx,
      ArenaCfg.lry, ArenaCfg.lrx, ARENA_HEIGHT, ARENA_WIDTH]))]
  exact h1

/-- Firing a non-reloading gun exactly `rounds_in_chamber` times produces
a cannon each time and ends with the chamber empty, reloading, and
`last_fired` the time of the last shot. -/
theorem Gun.fireIter_empties (cv : Vec) (ang : ℝ) :
    ∀ (ts : List ℚ) (g : Gun), g.is_reloading = false →
      g.rounds_in_chamber = (ts.length : ℤ) → ts ≠ [] →
      g.fireIter cv ang ts =
        (ts.map fun _ => some (mkCannon cv ang g.damage),
         { g with
            rounds_in_chamber := 0
            is_reloading := true
            last_fired := ts.getLast? }) := by
  intro ts
  induction ts with
  | nil => intro g _ _ hne; exact absurd rfl hne
  | cons t ts ih =>
    intro g h0 hr _
    cases ts with
    | nil =>
      simp only [List.length_cons, List.length_nil] at hr
      simp [Gun.fireIter, Gun.fire, h0, hr]
    | cons t2 ts2 =>
      have hfire : g.fire t cv ang =
          (some (mkCannon cv ang g.damage),
           { g with rounds_in_chamber := g.rounds_in_chamber - 1 }) := by
        simp only [List.length_cons] at hr
        simp [Gun.fire, h0]
        intro hzero
        omega
      have hih := ih { g with rounds_in_chamber := g.rounds_in_chamber - 1 }
        (by simp [h0]) (by simp only [List.length_cons] at hr ⊢; omega)
        (by simp)
      have step : g.fireIter cv ang (t :: t2 :: ts2) =
          ((g.fire t cv ang).1 ::
            ((g.fire t cv ang).2.fireIter cv ang (t2 :: ts2)).1,
           ((g.fire t cv ang).2.fireIter cv ang (t2 :: ts2)).2) := rfl
      rw [step, hfire]
      simp only [hih]
      simp [List.getLast?_cons_cons]

/-- C3: a gun with capacity `cap ≥ 1` starting `READY` with a full chamber
(as `Gun(...)` constructs it) fires a cannon carrying its damage on each of
`cap` consecutive `fire` calls (at times `ts`), ending with an empty
chamber, `is_reloading = true` and `last_fired` the time `t` of the last
shot; every further `fire` returns `None` and leaves the gun unchanged,
and once `now - last_fired > reload_time` a `reload_chamber()` call
restores a full chamber and clears `is_reloading`. -/
theorem gun_fire_reload_cycle
    (cap : ℕ) (rt : ℚ) (dmg : ℤ) (cv : Vec) (ang : ℝ) (ts : List ℚ) (t : ℚ)
    (hcap : 1 ≤ cap) (hts : ts.length = cap) (hlast : ts.getLast? = some t) :
    (mkGun (cap : ℤ) rt dmg).fireIter cv ang ts =
      (ts.map fun _ => some (mkCannon cv ang dmg), emptiedGun (cap : ℤ) rt dmg t) ∧
    (∀ (now2 : ℚ) (cv2 : Vec) (ang2 : ℝ),
      (emptiedGun (cap : ℤ) rt dmg t).fire now2 cv2 ang2 =
        (none, emptiedGun (cap : ℤ) rt dmg t)) ∧
    (∀ now2 : ℚ, now2 - t > rt →
      (emptiedGun (cap : ℤ) rt dmg t).reloadChamber now2 false =
        Except.ok { emptiedGun (cap : ℤ) rt dmg t with
          rounds_in_chamber := (cap : ℤ), is_reloading := false }) := by
  refine ⟨?_, ?_, ?_⟩
  · have hne : ts ≠ [] := by
      intro hnil
      rw [hnil] at hts
      simp at hts
      omega
    have h := Gun.fireIter_empties cv ang ts (mkGun (cap : ℤ) rt dmg) rfl
      (by simp [mkGun, hts]) hne
    rw [h]
    simp [mkGun, emptiedGun, hlast]
  · intro now2 cv2 ang2
    simp [Gun.fire, emptiedGun]
  · intro now2 h2
    simp [Gun.reloadChamber, emptiedGun, h2]

/-- Witness for C3 at capacity 2, reload time 1, damage 5, two shots at
times 0 and 1, a dry further fire at time 2, and a reload at time 3. -/
theorem gun_fire_reload_cycle_witness :
    (mkGun ((2 : ℕ) : ℤ) 1 5).fireIter ⟨0, 0⟩ 0 [0, 1] =
      ([some (mkCannon ⟨0, 0⟩ 0 5), some (mkCannon ⟨0, 0⟩ 0 5)],
        emptiedGun ((2 : ℕ) : ℤ) 1 5 1) ∧
    (emptiedGun ((2 : ℕ) : ℤ) 1 5 1).fire 2 ⟨0, 0⟩ 0 =
      (none, emptiedGun ((2 : ℕ) : ℤ) 1 5 1) ∧
    (emptiedGun ((2 : ℕ) : ℤ) 1 5 1).reloadChamber 3 false =
      Except.ok { emptiedGun ((2 : ℕ) : ℤ) 1 5 1 with
        rounds_in_chamber := ((2 : ℕ) : ℤ), is_reloading := false } := by
  have h := gun_fire_reload_cycle 2 1 5 ⟨0, 0⟩ 0 [0, 1] 1 (by norm_num) rfl rfl
  refine ⟨?_, h.2.1 2 ⟨0, 0⟩ 0, h.2.2 3 (by norm_num)⟩
  rw [h.1]
  rfl

/-- C4: a cannon and a plane with identical resolved (rounded) coordinates
hit: `hit_check` is true, `_check_hits` subtracts exactly the cannon's
damage from the plane's hull integrity, marks the cannon for deletion,
and appends exactly the three `PlaneExplosion`s at angle offsets `-1/5`,
`0`, `+1/5` with speed `cannon.speed * 0.5` to the plane's animation
queue. -/
theorem cannon_hit_resolution (c : Cannon) (p : Plane)
    (h : p.coordinates.resolve = c.coordinates.resolve) :
    p.toProjectile.hitCheck c.toProjectile = true ∧
    c.checkHits [p] false =
      (true, { c with for_deletion := true },
       [{ p with
          hull_integrity := p.hull_integrity - c.damage
          animations := p.animations ++ c.hitExplosions }]) ∧
    c.hitExplosions =
      [PlaneExplosion c.coordinates (c.angle_of_attack - 1 / 5) (c.speed * 0.5),
       PlaneExplosion c.coordinates c.angle_of_attack (c.speed * 0.5),
       PlaneExplosion c.coordinates (c.angle_of_attack + 1 / 5) (c.speed * 0.5)] := by
  have hc : p.toProjectile.hitCheck c.toProjectile = true := by
    simp only [Projectile.hitCheck, decide_eq_true_eq]
    exact h
  refine ⟨hc, ?_, ?_⟩
  · simp [Cannon.checkHits, hc]
  · simp [Cannon.hitExplosions, PlaneExplosion, AnimatedSprite.mk.injEq]
    norm_num
    ring

/-- Witness for C4: a cannon and a plane both at `(5, 7)` hit; the hull
drops from 100 to 95 (damage 5) and the cannon is marked for deletion. -/
theorem cannon_hit_resolution_witness :
    (mkPlaneF ⟨5, 7⟩ 0 1 100 (mkGun 3 1 5)).toProjectile.hitCheck
      (mkCannon ⟨5, 7⟩ 0 5).toProjectile = true ∧
    (((mkCannon ⟨5, 7⟩ 0 5).checkHits
        [mkPlaneF ⟨5, 7⟩ 0 1 100 (mkGun 3 1 5)] false).2.1).for_deletion = true ∧
    (((mkCannon ⟨5, 7⟩ 0 5).checkHits
        [mkPlaneF ⟨5, 7⟩ 0 1 100 (mkGun 3 1 5)] false).2.2).map
      (fun q => q.hull_integrity) = [95] := by
  have h := cannon_hit_resolution (mkCannon ⟨5, 7⟩ 0 5)
    (mkPlaneF ⟨5, 7⟩ 0 1 100 (mkGun 3 1 5)) rfl
  refine ⟨h.1, by rw [h.2.1], by rw [h.2.1]; rfl⟩

/-- C6: `reload_chamber(force=True)` on a gun that never emptied its
chamber (so `last_fired` is still `None` — exactly the state a plane
reset forces a reload in) raises `TypeError`: the source computes
`time.monotonic() - self.last_fired` before looking at `force`.  The
model returns the error instead of resetting the chamber. -/
theorem reload_chamber_force_none_last_fired_raises :
    (mkGun 3 2 20).reloadChamber 0 true = Except.error () := rfl

/-- Moving a projectile never changes its angle, speed or animation
queue. -/
theorem Projectile.move_keeps (A : ArenaCfg) (p : Projectile) :
    (p.move A).angle_of_attack = p.angle_of_attack ∧
    (p.move A).speed = p.speed ∧
    (p.move A).animations = p.animations := by
  cases hinf : p.infinite
  · refine ⟨?_, ?_, ?_⟩ <;>
      (simp only [Projectile.move, Projectile.reactToBoundary, hinf]
       split_ifs <;> rfl)
  · refine ⟨?_, ?_, ?_⟩ <;>
      simp [Projectile.move, Projectile.reactToBoundary, hinf]

/-- Moving a plane never changes its hull integrity, angle, speed or
animation queue. -/
theorem Plane.moveKeeps (A : ArenaCfg) (p : Plane) :
    (p.move A).hull_integrity = p.hull_integrity ∧
    (p.move A).angle_of_attack = p.angle_of_attack ∧
    (p.move A).speed = p.speed ∧
    (p.move A).animations = p.animations := by
  have h := Projectile.move_keeps A p.toProjectile
  exact ⟨rfl, h.1, h.2.1, h.2.2⟩

/-- The smoke step never changes hull integrity, angle, speed or
coordinates, and appends at most one `PlaneSmoke`. -/
theorem Plane.smokeStep_keeps (p : Plane) :
    p.smokeStep.hull_integrity = p.hull_integrity ∧
    p.smokeStep.angle_of_attack = p.angle_of_attack ∧
    p.smokeStep.speed = p.speed ∧
    (p.smokeStep.animations = p.animations ∨
      p.smokeStep.animations = p.animations ++ [PlaneSmoke p.coordinates]) := by
  unfold Plane.smokeStep
  split_ifs <;> exact ⟨rfl, rfl, rfl, by simp⟩

/-- C5 (amended): a plane whose hull integrity reached 0 or below during
the tick is marked for deletion by `draw`, which appends exactly five
`PlaneExplosion`s at angle offsets `i/3` for `i in [-2..2]` with speed
`plane.speed * 0.7` (a `PlaneSmoke` may accompany them, since hull < 40);
and `reset_plane` — what the scheduler runs on the next tick for a
for-deletion plane — restores hull 100, the slot's starting coordinates
and angle, a full chamber with `is_reloading` cleared, clears the
deletion flag and increments exactly the other player's kill count,
provided the plane's gun has a recorded `last_fired` time (otherwise the
forced reload raises, see the C6 bug). -/
theorem plane_death_and_reset
    (A : ArenaCfg) (p : Plane) (g : Game) (p0 p1 : Player) (now t0 t1 : ℚ)
    (hp : p.hull_integrity ≤ 0)
    (hg : g.players = [p0, p1])
    (h0 : p0.plane.gun.last_fired = some t0)
    (h1 : p1.plane.gun.last_fired = some t1) :
    (p.draw A).for_deletion = true ∧
    (p.draw A).animations =
      (p.smokeStep.move A).animations ++ (p.smokeStep.move A).explosionFan ∧
    (p.smokeStep.move A).explosionFan =
      [PlaneExplosion (p.smokeStep.move A).coordinates
        (p.angle_of_attack - 2 / 3) (p.speed * 0.7),
       PlaneExplosion (p.smokeStep.move A).coordinates
        (p.angle_of_attack - 1 / 3) (p.speed * 0.7),
       PlaneExplosion (p.smokeStep.move A).coordinates
        p.angle_of_attack (p.speed * 0.7),
       PlaneExplosion (p.smokeStep.move A).coordinates
        (p.angle_of_attack + 1 / 3) (p.speed * 0.7),
       PlaneExplosion (p.smokeStep.move A).coordinates
        (p.angle_of_attack + 2 / 3) (p.speed * 0.7)] ∧
    ((p.draw A).animations.filter AnimatedSprite.isExplosion).length =
      (p.animations.filter AnimatedSprite.isExplosion).length + 5 ∧
    g.resetPlane A now 0 = Except.ok { g with players :=
      [{ p0 with plane := { p0.plane with
            hull_integrity := 100
            coordinates := START_COORDS_ONE A
            angle_of_attack := START_ANGLE_ONE
            for_deletion := false
            gun := { p0.plane.gun with
              rounds_in_chamber := p0.plane.gun.capacity
              is_reloading := false } } },
       { p1 with kills := p1.kills + 1 }] } ∧
    g.resetPlane A now 1 = Except.ok { g with players :=
      [{ p0 with kills := p0.kills + 1 },
       { p1 with plane := { p1.plane with
            hull_integrity := 100
            coordinates := START_COORDS_TWO A
            angle_of_attack := START_ANGLE_TWO
            for_deletion := false
            gun := { p1.plane.gun with
              rounds_in_chamber := p1.plane.gun.capacity
              is_reloading := false } } }] } := by
  have hhull : (p.smokeStep.move A).hull_integrity = p.hull_integrity := by
    rw [(Plane.moveKeeps A p.smokeStep).1, (Plane.smokeStep_keeps p).1]
  have hnotpos : ¬ ((p.smokeStep.move A).hull_integrity > 0) := by omega
  have hdraw : p.draw A =
      { p.smokeStep.move A with
        animations := (p.smokeStep.move A).animations ++ (p.smokeStep.move A).explosionFan
        for_deletion := true } := by
    simp [Plane.draw, hnotpos]
  have hang : (p.smokeStep.move A).angle_of_attack = p.angle_of_attack := by
    rw [(Plane.moveKeeps A p.smokeStep).2.1, (Plane.smokeStep_keeps p).2.1]
  have hspeed : (p.smokeStep.move A).speed = p.speed := by
    rw [(Plane.moveKeeps A p.smokeStep).2.2.1, (Plane.smokeStep_keeps p).2.2.1]
  have hfan : (p.smokeStep.move A).explosionFan =
      [PlaneExplosion (p.smokeStep.move A).coordinates
        (p.angle_of_attack - 2 / 3) (p.speed * 0.7),
       PlaneExplosion (p.smokeStep.move A).coordinates
        (p.angle_of_attack - 1 / 3) (p.speed * 0.7),
       PlaneExplosion (p.smokeStep.move A).coordinates
        p.angle_of_attack (p.speed * 0.7),
       PlaneExplosion (p.smokeStep.move A).coordinates
        (p.angle_of_attack + 1 / 3) (p.speed * 0.7),
       PlaneExplosion (p.smokeStep.move A).coordinates
        (p.angle_of_attack + 2 / 3) (p.speed * 0.7)] := by
    simp [Plane.explosionFan, PlaneExplosion, AnimatedSprite.mk.injEq, hang, hspeed]
    norm_num
    exact ⟨by ring, by ring⟩
  refine ⟨?_, ?_, hfan, ?_, ?_, ?_⟩
  · rw [hdraw]
  · rw [hdraw]
  · rw [hdraw]
    have hanims : (p.smokeStep.move A).animations = p.smokeStep.animations :=
      (Plane.moveKeeps A p.smokeStep).2.2.2
    have hfan5 : (((p.smokeStep.move A).explosionFan).filter
        AnimatedSprite.isExplosion).length = 5 := by
      rw [hfan]
      simp [PlaneExplosion, AnimatedSprite.isExplosion]
    rcases (Plane.smokeStep_keeps p).2.2.2 with hs | hs
    · simp [List.filter_append, hanims, hs, hfan5]
    · simp [List.filter_append, hanims, hs, hfan5, PlaneSmoke, AnimatedSprite.isExplosion]
  · simp [Game.resetPlane, Game.resetLoop, Game.resetPlaneFields, Gun.reloadChamber,
      hg, h0, bind, Except.bind, pure, Except.pure]
  · simp [Game.resetPlane, Game.resetLoop, Game.resetPlaneFields, Gun.reloadChamber,
      hg, h1, bind, Except.bind, pure, Except.pure]

/-- Witness for C5: the dead plane fixture produces the death sequence,
and resetting it in the two-player fixture game yields kill counts
`[0, 1]` and hulls `[100, 50]`. -/
theorem plane_death_and_reset_witness :
    (deadPlane.draw A0).for_deletion = true ∧
    ((deadPlane.draw A0).animations.filter AnimatedSprite.isExplosion).length =
      (deadPlane.animations.filter AnimatedSprite.isExplosion).length + 5 ∧
    (wGameReset.resetPlane A0 7 0).map
      (fun g2 => g2.players.map fun pl => pl.kills) = Except.ok [0, 1] ∧
    (wGameReset.resetPlane A0 7 0).map
      (fun g2 => g2.players.map fun pl => pl.plane.hull_integrity) =
      Except.ok [100, 50] := by
  have h := plane_death_and_reset A0 deadPlane wGameReset
    ⟨1, "a", deadPlane, 0, true⟩ ⟨2, "b", alivePlane, 0, true⟩ 7 0 0
    (by norm_num [deadPlane, mkPlaneF]) rfl rfl rfl
  refine ⟨h.1, h.2.2.2.1, ?_, ?_⟩
  · rw [h.2.2.2.2.1]
    rfl
  · rw [h.2.2.2.2.1]
    rfl

/-- Counterexample to C5 as stated: when the dead plane's gun never
emptied its chamber (`last_fired = None`), `reset_plane` raises instead
of restoring the plane (the forced reload computes
`time.monotonic() - None`). -/
theorem reset_plane_raises_counterexample :
    wGameResetBad.resetPlane A0 7 0 = Except.error () := by
  simp [Game.resetPlane, Game.resetLoop, Game.resetPlaneFields, Gun.reloadChamber,
    wGameResetBad, freshGunDeadPlane, mkPlaneF, mkGun, bind, Except.bind]

/-- C8 (amended): a raw key mapped by neither yoke yields a `None` action
for both players in local mode; in network mode the same unmapped key
(when it is not the no-input sentinel `-1` from `getch`) is routed as the
integer `-1` — the default of `P_ONE_YOKE.get(key_press, -1)` — rather
than `None`; and `parse_key` acts only on `up`, `down` and `shoot`, so
any other routed value (including `None` and `-1`) leaves the plane
unchanged. -/
theorem input_routing_unmapped (k : ℤ)
    (h1 : P_ONE_YOKE k = none) (h2 : P_TWO_YOKE k = none) (hk : k ≠ -1) :
    LocalGame.readKey k = [⟨1, Payload.null⟩, ⟨2, Payload.null⟩] ∧
    NetworkGame.localKeyPayload k = Payload.intVal (-1) ∧
    (∀ (now : ℚ) (p : Plane) (key : Payload),
      (∀ s, key = Payload.act s → s ≠ "up" ∧ s ≠ "down" ∧ s ≠ "shoot") →
      p.applyKey now key = p) := by
  refine ⟨?_, ?_, ?_⟩
  · simp [LocalGame.readKey, h1, h2]
  · simp [NetworkGame.localKeyPayload, hk, h1]
  · intro now p key hkey
    cases key with
    | act s =>
      obtain ⟨hu, hd, hs⟩ := hkey s rfl
      simp [Plane.applyKey, hu, hd, hs]
    | null => rfl
    | intVal n => rfl

/-- Witness for C8 (amended) at the unmapped key 65 (`A`). -/
theorem input_routing_unmapped_witness :
    LocalGame.readKey 65 = [⟨1, Payload.null⟩, ⟨2, Payload.null⟩] ∧
    NetworkGame.localKeyPayload 65 = Payload.intVal (-1) ∧
    (mkPlaneF ⟨10, 20⟩ 0 1 100 (mkGun 3 1 5)).applyKey 0 Payload.null =
      mkPlaneF ⟨10, 20⟩ 0 1 100 (mkGun 3 1 5) := by
  have h := input_routing_unmapped 65 rfl rfl (by decide)
  exact ⟨h.1, h.2.1,
    h.2.2 0 (mkPlaneF ⟨10, 20⟩ 0 1 100 (mkGun 3 1 5)) Payload.null
      (fun s hs => nomatch hs)⟩

/-- Counterexample to C8 as stated: in network mode the unmapped key 65
is routed as the integer sentinel `-1`, not as a none action. -/
theorem network_unmapped_key_counterexample :
    NetworkGame.localKeyPayload 65 = Payload.intVal (-1) ∧
    Payload.intVal (-1) ≠ Payload.null := by
  exact ⟨rfl, by decide⟩

/-- C9: the pairing logic of `_provision_players` never runs — the
method crashes first.  For every received mapping (any arrival order of
any client entries), `_provision_players` raises `TypeError` at the
`self._provision_planes()` call (src/game.py:247): `BF109`/`P51` are
`functools.partial` over the draft `dogfight.Plane` (src/planes.py:5),
whose dataclass `__init__` accepts neither the partial's `color` keyword
nor the call-site `color_pair` keyword.  The sort at src/game.py:252-264
that would make the assignment order-invariant is unreachable. -/
theorem provision_players_raises (A : ArenaCfg) (recv : List NetEntry) :
    NetworkGame.provisionPlayers A recv = Except.error () ∧
    NetworkGame.provisionPlayers A [⟨"a1", "x"⟩, ⟨"b2", "y"⟩] =
      NetworkGame.provisionPlayers A [⟨"b2", "y"⟩, ⟨"a1", "x"⟩] := by
  have hkw : ¬ ∀ k ∈ provisionPlaneCallKwargs, k ∈ dogfightPlaneInitKwargs := by
    decide
  constructor
  · simp [NetworkGame.provisionPlayers, Game.provisionPlanes, hkw,
      bind, Except.bind]
  · simp [NetworkGame.provisionPlayers, Game.provisionPlanes, hkw,
      bind, Except.bind]

/-- Rounding an integer plus one half: the tie goes to the even
neighbour. -/
theorem pyRound_half (n : ℤ) :
    pyRound ((n : ℝ) + 1 / 2) = if 2 ∣ n then n else n + 1 := by
  have hhalf : ⌊(1 / 2 : ℝ)⌋ = 0 := by
    rw [Int.floor_eq_iff]
    norm_num
  have hfloor : ⌊(n : ℝ) + 1 / 2⌋ = n := by
    rw [Int.floor_int_add, hhalf, add_zero]
  have hfract : Int.fract ((n : ℝ) + 1 / 2) = 1 / 2 := by
    rw [Int.fract_int_add, Int.fract, hhalf]
    norm_num
  unfold pyRound
  rw [hfract, if_pos rfl, hfloor]

/-- C10: `Vector.resolve` (and `round(Vector)`) round half to even, so
`Vector(0.5, 1.5).resolve() == (0, 2)` and not `(1, 2)`; `hit_check` is
exactly equality of the two resolved coordinate pairs; the nose is placed
from the componentwise-rounded coordinates and rounded direction; and
boundary detection reads the resolved coordinates, so a tie at `y = 19.5`
resolves to 20 and registers a bottom hit in the zero-shift arena while
`y = 18.5` resolves to 18 and does not. -/
theorem half_even_rounding :
    Vec.resolve ⟨1 / 2, 3 / 2⟩ = (0, 2) ∧
    ((0 : ℤ), (2 : ℤ)) ≠ ((1 : ℤ), (2 : ℤ)) ∧
    (∀ p q : Projectile,
      p.hitCheck q = true ↔ p.coordinates.resolve = q.coordinates.resolve) ∧
    (∀ (A : ArenaCfg) (p : Plane),
      (Plane.move A p).nose_coords =
        (((p.toProjectile.move A).coordinates).round).add
          ((resolve_direction p.angle_of_attack).round)) ∧
    Vec.resolve ⟨39 / 2, 5⟩ = (20, 5) ∧
    (Projectile.hitBoundary A0 20 5).bottom = true ∧
    Vec.resolve ⟨37 / 2, 5⟩ = (18, 5) ∧
    (Projectile.hitBoundary A0 18 5).bottom = false := by
  have h0 : pyRound (1 / 2 : ℝ) = 0 := by
    have h := pyRound_half 0
    norm_num at h
    exact h
  have h1 : pyRound (3 / 2 : ℝ) = 2 := by
    have h := pyRound_half 1
    norm_num at h
    exact h
  have h19 : pyRound (39 / 2 : ℝ) = 20 := by
    have h := pyRound_half 19
    norm_num at h
    exact h
  have h18 : pyRound (37 / 2 : ℝ) = 18 := by
    have h := pyRound_half 18
    norm_num at h
    exact h
  have h5 : pyRound (5 : ℝ) = 5 := pyRound_ofInt _ 5 (by norm_num)
  refine ⟨?_, by decide, ?_, ?_, ?_, ?_, ?_, ?_⟩
  · have hr : Vec.resolve ⟨1 / 2, 3 / 2⟩ =
        (pyRound (1 / 2 : ℝ), pyRound (3 / 2 : ℝ)) := rfl
    rw [hr, h0, h1]
  · intro p q
    simp [Projectile.hitCheck]
  · intro A p
    simp [Plane.move, (Projectile.move_keeps A p.toProjectile).1]
  · have hr : Vec.resolve ⟨39 / 2, 5⟩ =
        (pyRound (39 / 2 : ℝ), pyRound (5 : ℝ)) := rfl
    rw [hr, h19, h5]
  · simp [Projectile.hitBoundary, A0, ArenaCfg.lry, ARENA_HEIGHT]
  · have hr : Vec.resolve ⟨37 / 2, 5⟩ =
        (pyRound (37 / 2 : ℝ), pyRound (5 : ℝ)) := rfl
    rw [hr, h18, h5]
  · simp [Projectile.hitBoundary, A0, ArenaCfg.lry, ARENA_HEIGHT]

/-- C7 (amended): `next_frame` is the plane phase followed by the cannon
phase and the animation phase, and the cannon phase updates (moves and
hit-checks) every non-deleted cannon present in the shared list *after*
the plane phase — which includes a cannon fired and drained into the list
during this same tick's plane phase, since `parse_key` runs before the
drain in each player step. -/
theorem cannon_phase_updates_all (A : ArenaCfg) (now : ℚ) (ks : List KeyPress)
    (g g1 : Game) (h : g.planesPhase A now ks = Except.ok g1) :
    g.nextFrame A now ks = Except.ok (Game.animPhase (Game.cannonPhase A g1)) ∧
    (Game.cannonPhase A g1).cannons =
      (Game.cannonLoop A (g1.cannons.filter fun c => !c.for_deletion)
        (g1.players.map fun pl => pl.plane)).1 := by
  constructor
  · simp [Game.nextFrame, h, bind, Except.bind, pure, Except.pure]
  · rfl

/-- Witness for C7 (amended) on the empty game, whose plane phase is a
no-op. -/
theorem cannon_phase_updates_all_witness :
    emptyGame.nextFrame A0 0 [] =
      Except.ok (Game.animPhase (Game.cannonPhase A0 emptyGame)) :=
  (cannon_phase_updates_all A0 0 [] emptyGame emptyGame rfl).1

set_option maxHeartbeats 2000000 in
/-- Counterexample to C7 as stated: in the two-plane fixture game, player
one's `shoot` fires a cannon that spawns at `(12, 20)` (two direction
steps ahead of the plane at `(10, 20)`), and after the very same
`next_frame` tick the only cannon in the shared list sits at `(13, 20)` —
the just-fired round was moved (and hit-checked) within its spawn tick. -/
theorem fired_cannon_moves_same_tick_counterexample :
    ((mkPlaneF ⟨10, 20⟩ 0 1 100 (mkGun 3 1 5)).fireCannon 0).1.map
      (fun c => (c.coordinates.y, c.coordinates.x)) = some (12, 20) ∧
    (tickGame.nextFrame A0 0 tickKeys).map
      (fun g2 => g2.cannons.map fun c => (c.coordinates.y, c.coordinates.x)) =
      Except.ok [((13 : ℝ), (20 : ℝ))] := by
  have h0 : pyRound (0 : ℝ) = 0 := pyRound_ofInt _ 0 (by norm_num)
  have h1 : pyRound (1 : ℝ) = 1 := pyRound_ofInt _ 1 (by norm_num)
  have h10 : pyRound (10 : ℝ) = 10 := pyRound_ofInt _ 10 (by norm_num)
  have h11 : pyRound (11 : ℝ) = 11 := pyRound_ofInt _ 11 (by norm_num)
  have h12 : pyRound (12 : ℝ) = 12 := pyRound_ofInt _ 12 (by norm_num)
  have h13 : pyRound (13 : ℝ) = 13 := pyRound_ofInt _ 13 (by norm_num)
  have h20 : pyRound (20 : ℝ) = 20 := pyRound_ofInt _ 20 (by norm_num)
  have h60 : pyRound (60 : ℝ) = 60 := pyRound_ofInt _ 60 (by norm_num)
  have hs1 : "shoot" ≠ "up" := by decide
  have hs2 : "shoot" ≠ "down" := by decide
  constructor
  · norm_num [Plane.fireCannon, mkPlaneF, mkGun, Gun.fire, mkCannon,
      resolve_direction_zero, Vec.round, Vec.add, h10, h20, h1, h0]
  · norm_num [Game.nextFrame, Game.planesPhase, Game.playerStep, Game.resetPlane,
      Game.cannonPhase, Game.cannonLoop, Game.animPhase, tickGame, tickKeys,
      Player.parseKey, Plane.applyKey, Plane.fireCannon, Gun.fire, mkGun, mkCannon,
      mkPlaneF, Plane.draw, Plane.smokeStep, Plane.move, Projectile.move,
      Projectile.reactToBoundary, Projectile.hitBoundary, BoundaryHit.any,
      Cannon.update, Cannon.checkHits, Projectile.hitCheck, Cannon.hitExplosions,
      noseGlyph, resolve_direction_zero, Vec.resolve, Vec.round, Vec.add, Vec.smul,
      A0, ArenaCfg.uly, ArenaCfg.ulx, ArenaCfg.lry, ArenaCfg.lrx,
      ARENA_HEIGHT, ARENA_WIDTH, Gun.reloadChamber,
      bind, Except.bind, pure, Except.pure, List.range_succ,
      h0, h1, h10, h11, h12, h13, h20, h60, hs1, hs2, Except.map]
